import Mathlib

/-!
Verification of the CMake build-system plugin (`rezplugins/build_system/cmake.py`).

The Python source is shallowly embedded below:
pure string manipulation is modelled over `List Char` with Python
semantics (`str.split`, `str.replace`, `str.strip(" ")`, `str.startswith`,
slicing), the generator-discovery loop of `CMakeBuildSystem.build_systems`
becomes a fold over the help-text lines returning `Except` (a Python
exception is an `Except.error`), and the `CMakeBuildSystem.build` method
becomes a pure function from its inputs and an exit-code oracle to the
produced result dictionary together with the list of commands passed to
`context.execute_shell`, in execution order.
-/

/-- Python `s.split(sep)` for a one-character separator `sep` (the source only
splits on `"="` and `"\n"`).  Empty input gives `[[]]`, like Python. -/
def splitOnChar (sep : Char) : List Char → List (List Char)
  | [] => [[]]
  | c :: cs =>
    match splitOnChar sep cs with
    | [] => []
    | r :: rs => if c = sep then [] :: r :: rs else (c :: r) :: rs

/-- Python `s.startswith(p)`, with the pattern as the first argument. -/
def startsWithList : List Char → List Char → Bool
  | [], _ => true
  | _ :: _, [] => false
  | p :: ps, c :: cs => p = c && startsWithList ps cs

/-- Python `name.replace("[arch]", "")` from `build_systems`: remove every
non-overlapping occurrence of `[arch]`, scanning left to right. -/
def replaceArch : List Char → List Char
  | '[' :: 'a' :: 'r' :: 'c' :: 'h' :: ']' :: cs => replaceArch cs
  | c :: cs => c :: replaceArch cs
  | [] => []

/-- Python `name.strip(" ")`: remove spaces (only spaces) from both ends. -/
def stripSpaces (l : List Char) : List Char :=
  ((l.dropWhile (fun c => c = ' ')).reverse.dropWhile (fun c => c = ' ')).reverse

/-- Python `s.startswith(p)` on `String`s. -/
def pyStartsWith (p s : String) : Bool :=
  startsWithList p.toList s.toList

/-- Python `s.endswith(p)` on `String`s. -/
def pyEndsWith (p s : String) : Bool :=
  startsWithList p.toList.reverse s.toList.reverse

/-- Python `s.replace('\\', '/')` from the `-DCMAKE_MODULE_PATH` argument. -/
def replaceBackslashes (s : String) : String :=
  String.mk (s.toList.map (fun c => if c = '\\' then '/' else c))

/-- Python `x in cmd` / `x not in cmd` membership on a list of strings. -/
def pyContains (l : List String) (s : String) : Bool :=
  l.any (fun x => decide (x = s))

/-- Python `os.path.join(a, b)` (posix flavour), as used for
`os.path.join(build_path, "build-env")`. -/
def os_path_join (a b : String) : String :=
  if pyStartsWith "/" b then b
  else if a = "" ∨ pyEndsWith "/" a then a ++ b
  else a ++ "/" ++ b

/-- Python `dict[key]` lookup on a literal association table; `none` models a
`KeyError` at the call site. -/
def lookupStr : List (String × String) → String → Option String
  | [], _ => none
  | (k, v) :: rest, s => if s = k then some v else lookupStr rest s

/-! ## Generator discovery: `CMakeBuildSystem.build_systems` -/

/-- The loop state of the parsing loop in `build_systems`: the
`is_in_generators` flag, the `generators` list accumulated so far, and the
class attribute `_default_build_system` (initially `None`). -/
structure DiscoverState where
  is_in_generators : Bool
  generators : List String
  default_build_system : Option String
deriving Repr, DecidableEq

/-- Python exceptions that the discovery loop can raise: the tuple unpacking
`name, _ = line.split("=")` raises `ValueError` when the split does not have
exactly two parts. -/
inductive ParseErr where
  | valueError
deriving Repr, DecidableEq

/-- The state at loop entry: not yet inside the `Generators` section, no
generators collected, class default `None`. -/
def initDiscoverState : DiscoverState := ⟨false, [], none⟩

/-- The literal heading `"Generators"` that switches the loop into capture
mode (`line.startswith("Generators")`). -/
def generatorsHeading : List Char := "Generators".toList

/-- One iteration of the `for line in stdout.split("\n")` loop of
`build_systems`.  Inside the generators section, a line containing `=` is
split on `=`; the unpacking `name, _ = line.split("=")` needs exactly two
parts, otherwise Python raises `ValueError`.  The name part drops `[arch]`,
a leading `"* "` marks the platform default, and the result is
space-stripped, recorded as default if marked, and appended. -/
def processLine (st : DiscoverState) (line : List Char) : Except ParseErr DiscoverState :=
  if st.is_in_generators then
    if line.contains '=' then
      match splitOnChar '=' line with
      | [name0, _] =>
        let name1 := replaceArch name0
        let is_default := startsWithList "* ".toList name1
        let name2 := if is_default then name1.drop 2 else name1
        let name := String.mk (stripSpaces name2)
        Except.ok { st with
          generators := st.generators ++ [name],
          default_build_system := if is_default then some name else st.default_build_system }
      | _ => Except.error ParseErr.valueError
    else Except.ok st
  else if startsWithList generatorsHeading line then
    Except.ok { st with is_in_generators := true }
  else Except.ok st

/-- The whole `for` loop of `build_systems`, line by line. -/
def runLines (st : DiscoverState) : List (List Char) → Except ParseErr DiscoverState
  | [] => Except.ok st
  | l :: ls =>
    match processLine st l with
    | Except.ok st' => runLines st' ls
    | Except.error e => Except.error e

/-- `CMakeBuildSystem.build_systems` restricted to its parsing of the help
text: from the captured `stdout` of `cmake --help`, the ordered generator
list (the keys of the mirrored `dict(zip(generators, generators))`) and the
value of `_default_build_system` afterwards. -/
def build_systems (stdout : String) : Except ParseErr (List String × Option String) :=
  match runLines initDiscoverState (splitOnChar '\n' stdout.toList) with
  | Except.ok st => Except.ok (st.generators, st.default_build_system)
  | Except.error e => Except.error e

instance {ε α : Type} [DecidableEq ε] [DecidableEq α] : DecidableEq (Except ε α) := fun a b =>
  match a, b with
  | Except.ok x, Except.ok y =>
    if h : x = y then isTrue (by rw [h]) else isFalse (by intro hc; cases hc; exact h rfl)
  | Except.error x, Except.error y =>
    if h : x = y then isTrue (by rw [h]) else isFalse (by intro hc; cases hc; exact h rfl)
  | Except.ok _, Except.error _ => isFalse (by intro hc; cases hc)
  | Except.error _, Except.ok _ => isFalse (by intro hc; cases hc)

/-! ## The build pipeline: `CMakeBuildSystem.build` -/

/-- `rez.build_process_.BuildType`, of which `build` only uses `.name`
(the string interpolated into `-DREZ_BUILD_TYPE=%s`) and equality with
`BuildType.central`. -/
inductive BuildType where
  | localBT
  | central
deriving Repr, DecidableEq

/-- The `name` attribute of the Python enum member (`"local"` / `"central"`). -/
def BuildType.name : BuildType → String
  | BuildType.localBT => "local"
  | BuildType.central => "central"

/-- Python exceptions escaping `CMakeBuildSystem.build`'s command assembly:
`generatorUnsupported` models the `KeyError` raised by
`self.legacy_build_systems[self.cmake_build_system]` when the selected
generator is neither a discovered generator nor a legacy alias. -/
inductive BuildErr where
  | generatorUnsupported (name : String)
deriving Repr, DecidableEq

/-- The `ret` dictionary returned by `build`: the `"success"` entry and the
optional `"build_env_script"` entry. -/
structure BuildResult where
  success : Bool
  build_env_script : Option String
deriving Repr, DecidableEq

/-- The inputs of one `CMakeBuildSystem.build` invocation that the source
reads from `self`, its settings, the global `config`, the shell and the
variant: the located cmake executable, the working directory, the plugin
settings (`cmake_args`, `make_binary`, `build_system` via
`self.cmake_build_system`, `build_target`), the CLI argument lists, the
shell's `CMAKE_MODULE_PATH` key token, the variant's
`build_thread_count`, the platform name, the two rez-1 compatibility
config flags, and `write_build_scripts`.  Python `None` for
`make_binary` / `cmake_build_system` is modelled by `""` (both are only
tested for truthiness or compared with non-empty literals). -/
structure BuildInput where
  found_exe : String
  working_dir : String
  cmake_args : List String
  build_args : List String
  child_build_args : List String
  make_binary : String
  cmake_build_system : String
  build_target : String
  module_path_token : String
  build_thread_count : Nat
  platform_name : String
  rez_1_cmake_variables : Bool
  disable_rez_1_compatibility : Bool
  write_build_scripts : Bool
deriving Repr, DecidableEq

/-- The class attribute `CMakeBuildSystem.legacy_build_systems`. -/
def legacy_build_systems : List (String × String) :=
  [("eclipse", "Eclipse CDT4 - Unix Makefiles"),
   ("codeblocks", "CodeBlocks - Unix Makefiles"),
   ("make", "Unix Makefiles"),
   ("nmake", "NMake Makefiles"),
   ("mingw", "MinGW Makefiles"),
   ("xcode", "Xcode")]

/-- The generator resolution inside `build` (lines 194-202): a selected name
found among the discovered generators resolves to itself (the discovered
dict mirrors keys and values); otherwise the legacy alias table is indexed,
and a missing key raises (`KeyError`, modelled as `generatorUnsupported`). -/
def resolveGenerator (catalog : List String) (cbs : String) : Except BuildErr String :=
  if pyContains catalog cbs = false then
    match lookupStr legacy_build_systems cbs with
    | some g => Except.ok g
    | none => Except.error (BuildErr.generatorUnsupported cbs)
  else Except.ok cbs

/-- The `-G <generator>` argument pair: present only when
`self.cmake_build_system` is truthy, in which case resolution may raise. -/
def computeGenFlags (catalog : List String) (cbs : String) : Except BuildErr (List String) :=
  if cbs ≠ "" then
    match resolveGenerator catalog cbs with
    | Except.ok g => Except.ok ["-G", g]
    | Except.error e => Except.error e
  else Except.ok []

/-- The cmake configure command assembled at lines 184-209, one `let` per
source append, in source order. -/
def assembleConfigureCommand (inp : BuildInput) (install_path : String) (install : Bool)
    (build_type : BuildType) (gen_flags : List String) : List String :=
  let cmd := [inp.found_exe, "-d", inp.working_dir]
  let cmd := cmd ++ inp.cmake_args
  let cmd := cmd ++ inp.build_args
  let cmd := cmd ++ ["-DCMAKE_INSTALL_PREFIX=" ++ install_path]
  let cmd := cmd ++ ["-DCMAKE_MODULE_PATH=" ++ replaceBackslashes inp.module_path_token]
  let cmd := cmd ++ ["-DCMAKE_BUILD_TYPE=" ++ inp.build_target]
  let cmd := cmd ++ ["-DREZ_BUILD_TYPE=" ++ build_type.name]
  let cmd := cmd ++ ["-DREZ_BUILD_INSTALL=" ++ (if install then "1" else "0")]
  let cmd := cmd ++ gen_flags
  let cmd := cmd ++
    (if inp.rez_1_cmake_variables = true ∧ inp.disable_rez_1_compatibility = false ∧
        build_type = BuildType.central
     then ["-DCENTRAL=1"] else [])
  cmd

/-- The make command `cmd` assembled at lines 253-271: tool-driven
`--build` form when `make_binary` is unset, `make_binary` plus an injected
`-j<threads>` flag (unless a child arg already starts with `-j`) when it is
set and not `"nmake"`, and nothing at all for `"nmake"`; the child build
args are appended verbatim in every case. -/
def assembleMakeCmd (inp : BuildInput) (build_path : String) : List String :=
  (if inp.make_binary = "" then
     [inp.found_exe, "--build", build_path]
   else if inp.make_binary ≠ "nmake" then
     [inp.make_binary] ++
       (if (inp.child_build_args.any (fun x => pyStartsWith "-j" x)) = false then
          ["-j" ++ toString inp.build_thread_count]
        else [])
   else [])
  ++ inp.child_build_args

/-- `all_cmd` (lines 273-278): the make command plus, only in the
no-`make_binary` form, an explicit full-build target (`ALL_BUILD` on
windows, `all` elsewhere). -/
def assembleAllCmd (inp : BuildInput) (build_path : String) : List String :=
  assembleMakeCmd inp build_path ++
    (if inp.make_binary = "" then
       (if inp.platform_name = "windows" then ["--target", "ALL_BUILD"] else ["--target", "all"])
     else [])

/-- The install command (lines 287-290): `cmd` with `--target` appended in
the no-`make_binary` form, then `install`. -/
def assembleInstallCmd (inp : BuildInput) (build_path : String) : List String :=
  assembleMakeCmd inp build_path ++
    (if inp.make_binary = "" then ["--target"] else []) ++ ["install"]

/-- The phase sequencing of `CMakeBuildSystem.build` once the generator
flags are resolved.  `exec n` is the exit code that `context.execute_shell`
returns for the n-th executed command; the function returns the `ret`
dictionary together with the commands passed to `execute_shell`, in order.
Mirrors the source: configure (return `success=False` on nonzero exit); the
`write_build_scripts` early exit writing `<build_path>/build-env`; the
build phase running `all_cmd`; then the install phase iff the build
succeeded, `install` was requested and `"install" not in cmd`; finally
`success = (not retcode)` of the last executed phase. -/
def buildWithGen (inp : BuildInput) (build_path install_path : String)
    (install : Bool) (build_type : BuildType) (exec : Nat → Int) (gen_flags : List String) :
    Except BuildErr BuildResult × List (List String) :=
  if exec 0 ≠ 0 then
    (Except.ok { success := false, build_env_script := none },
     [assembleConfigureCommand inp install_path install build_type gen_flags])
  else if inp.write_build_scripts then
    (Except.ok { success := true,
                 build_env_script := some (os_path_join build_path "build-env") },
     [assembleConfigureCommand inp install_path install build_type gen_flags])
  else if exec 1 = 0 ∧ install = true ∧
          pyContains (assembleMakeCmd inp build_path) "install" = false then
    (Except.ok { success := decide (exec 2 = 0), build_env_script := none },
     [assembleConfigureCommand inp install_path install build_type gen_flags,
      assembleAllCmd inp build_path, assembleInstallCmd inp build_path])
  else
    (Except.ok { success := decide (exec 1 = 0), build_env_script := none },
     [assembleConfigureCommand inp install_path install build_type gen_flags,
      assembleAllCmd inp build_path])

/-- `CMakeBuildSystem.build`, as `buildWithGen` after the generator
resolution (which is the only step of the method that can raise). -/
def build (inp : BuildInput) (catalog : List String) (build_path install_path : String)
    (install : Bool) (build_type : BuildType) (exec : Nat → Int) :
    Except BuildErr BuildResult × List (List String) :=
  match computeGenFlags catalog inp.cmake_build_system with
  | Except.error e => (Except.error e, [])
  | Except.ok gf => buildWithGen inp build_path install_path install build_type exec gf

/-! ## Helper lemmas -/

theorem splitOnChar_exists_cons (sep : Char) (l : List Char) :
    ∃ r rs, splitOnChar sep l = r :: rs := by
  induction l with
  | nil => exact ⟨[], [], rfl⟩
  | cons c cs ih =>
    obtain ⟨r, rs, hr⟩ := ih
    by_cases hc : c = sep
    · exact ⟨[], r :: rs, by simp [splitOnChar, hr, hc]⟩
    · exact ⟨c :: r, rs, by simp [splitOnChar, hr, hc]⟩

theorem splitOnChar_length_ge_two (sep : Char) (l : List Char)
    (h : sep ∈ l) : 2 ≤ (splitOnChar sep l).length := by
  induction l with
  | nil => cases h
  | cons c cs ih =>
    obtain ⟨r, rs, hr⟩ := splitOnChar_exists_cons sep cs
    by_cases hc : c = sep
    · simp only [splitOnChar, hr]
      rw [if_pos hc]
      simp
    · rcases List.mem_cons.mp h with h1 | h1
      · exact absurd h1.symm hc
      · have h2 := ih h1
        rw [hr] at h2
        simp only [splitOnChar, hr]
        rw [if_neg hc]
        simpa using h2

theorem processLine_ok (st : DiscoverState) (l : List Char)
    (h : (splitOnChar '=' l).length ≤ 2) :
    ∃ st', processLine st l = Except.ok st' := by
  by_cases hig : st.is_in_generators = true
  · by_cases hcont : l.contains '=' = true
    · have hmem : '=' ∈ l := by simpa using hcont
      have h2 : (splitOnChar '=' l).length = 2 :=
        le_antisymm h (splitOnChar_length_ge_two '=' l hmem)
      obtain ⟨a, b, hab⟩ := List.length_eq_two.mp h2
      unfold processLine
      rw [if_pos hig, if_pos hcont, hab]
      exact ⟨_, rfl⟩
    · unfold processLine
      rw [if_pos hig, if_neg hcont]
      exact ⟨st, rfl⟩
  · by_cases hgen : startsWithList generatorsHeading l = true
    · unfold processLine
      rw [if_neg hig, if_pos hgen]
      exact ⟨_, rfl⟩
    · unfold processLine
      rw [if_neg hig, if_neg hgen]
      exact ⟨st, rfl⟩

theorem runLines_ok (ls : List (List Char)) (st : DiscoverState)
    (h : ∀ l ∈ ls, (splitOnChar '=' l).length ≤ 2) :
    ∃ st', runLines st ls = Except.ok st' := by
  induction ls generalizing st with
  | nil => exact ⟨st, rfl⟩
  | cons l ls ih =>
    obtain ⟨st1, h1⟩ := processLine_ok st l (h l (List.mem_cons_self l ls))
    obtain ⟨st2, h2⟩ := ih st1 (fun x hx => h x (List.mem_cons_of_mem l hx))
    exact ⟨st2, by rw [runLines, h1]; exact h2⟩

theorem processLine_no_heading (st : DiscoverState) (l : List Char)
    (hig : st.is_in_generators = false)
    (hgen : startsWithList generatorsHeading l = false) :
    processLine st l = Except.ok st := by
  unfold processLine
  rw [if_neg (by simp [hig]), if_neg (by simp [hgen])]

theorem runLines_no_heading (ls : List (List Char)) (st : DiscoverState)
    (hig : st.is_in_generators = false)
    (h : ∀ l ∈ ls, startsWithList generatorsHeading l = false) :
    runLines st ls = Except.ok st := by
  induction ls with
  | nil => rfl
  | cons l ls ih =>
    rw [runLines, processLine_no_heading st l hig (h l (List.mem_cons_self l ls))]
    exact ih (fun x hx => h x (List.mem_cons_of_mem l hx))

theorem build_eq_buildWithGen (inp : BuildInput) (catalog : List String) (bp ip : String)
    (install : Bool) (bt : BuildType) (exec : Nat → Int) (gf : List String)
    (hg : computeGenFlags catalog inp.cmake_build_system = Except.ok gf) :
    build inp catalog bp ip install bt exec = buildWithGen inp bp ip install bt exec gf := by
  unfold build
  rw [hg]

theorem append_ne_dashG (p q : String) (hp : 3 ≤ p.length) : p ++ q ≠ "-G" := by
  intro hc
  have hlen := congrArg String.length hc
  rw [String.length_append] at hlen
  have h2 : ("-G" : String).length = 2 := rfl
  omega

theorem assembleConfigureCommand_eq (inp : BuildInput) (install_path : String) (install : Bool)
    (build_type : BuildType) (gen_flags : List String) :
    assembleConfigureCommand inp install_path install build_type gen_flags =
      [inp.found_exe, "-d", inp.working_dir] ++ inp.cmake_args ++ inp.build_args ++
      ["-DCMAKE_INSTALL_PREFIX=" ++ install_path,
       "-DCMAKE_MODULE_PATH=" ++ replaceBackslashes inp.module_path_token,
       "-DCMAKE_BUILD_TYPE=" ++ inp.build_target,
       "-DREZ_BUILD_TYPE=" ++ build_type.name,
       "-DREZ_BUILD_INSTALL=" ++ (if install then "1" else "0")] ++
      gen_flags ++
      (if inp.rez_1_cmake_variables = true ∧ inp.disable_rez_1_compatibility = false ∧
          build_type = BuildType.central then ["-DCENTRAL=1"] else []) := by
  simp [assembleConfigureCommand]

/-! ## Claims -/

/-- C1 (amended): discovery never raises on help text in which every line
contains at most one `=` character, and help text with no line starting with
the `Generators` heading yields an empty catalog and an absent default; but
(see the counterexample) a capture-eligible line with more than one `=`
raises a `ValueError` instead of degrading to an empty catalog. -/
theorem C1_discovery_no_raise_amended (stdout : String)
    (hone : ∀ l ∈ splitOnChar '\n' stdout.toList, (splitOnChar '=' l).length ≤ 2) :
    (∃ r, build_systems stdout = Except.ok r)
    ∧ ((∀ l ∈ splitOnChar '\n' stdout.toList,
         startsWithList generatorsHeading l = false) →
       build_systems stdout = Except.ok ([], none)) := by
  constructor
  · obtain ⟨st', h'⟩ := runLines_ok (splitOnChar '\n' stdout.toList) initDiscoverState hone
    refine ⟨(st'.generators, st'.default_build_system), ?_⟩
    unfold build_systems
    rw [h']
  · intro hno
    unfold build_systems
    rw [runLines_no_heading _ _ rfl hno]
    rfl

theorem C1_witness : build_systems "no generators here\nat all" = Except.ok ([], none) :=
  (C1_discovery_no_raise_amended "no generators here\nat all" (by decide)).2 (by decide)

/-- C1 counterexample: a capture-eligible line containing two `=` characters
makes the tuple unpacking `name, _ = line.split("=")` raise `ValueError`;
discovery raises instead of yielding an empty catalog. -/
theorem C1_counterexample :
    build_systems "Generators\nA = B = C" = Except.error ParseErr.valueError := rfl

/-- C2: if the configure phase's process exits nonzero, `build` returns
`success=False`, has executed exactly the one configure command (zero build
and zero install commands), and raises no exception. -/
theorem C2_configure_failure_stops_pipeline (inp : BuildInput) (catalog : List String)
    (bp ip : String) (install : Bool) (bt : BuildType) (exec : Nat → Int) (gf : List String)
    (hg : computeGenFlags catalog inp.cmake_build_system = Except.ok gf)
    (hrc : exec 0 ≠ 0) :
    build inp catalog bp ip install bt exec =
      (Except.ok { success := false, build_env_script := none },
       [assembleConfigureCommand inp ip install bt gf]) := by
  rw [build_eq_buildWithGen inp catalog bp ip install bt exec gf hg]
  unfold buildWithGen
  rw [if_pos hrc]

/-- A build invocation with default-like settings (no generator selected, no
make binary, empty extra argument lists) used to witness the pipeline
claims. -/
def plainInput : BuildInput :=
  { found_exe := "/usr/bin/cmake", working_dir := "/src/pkg",
    cmake_args := [], build_args := [], child_build_args := [],
    make_binary := "", cmake_build_system := "", build_target := "Release",
    module_path_token := "MODTOK", build_thread_count := 4,
    platform_name := "linux", rez_1_cmake_variables := false,
    disable_rez_1_compatibility := false, write_build_scripts := false }

theorem C2_witness :
    build plainInput [] "/bld" "/inst" false BuildType.localBT (fun _ => 1) =
      (Except.ok { success := false, build_env_script := none },
       [["/usr/bin/cmake", "-d", "/src/pkg", "-DCMAKE_INSTALL_PREFIX=/inst",
         "-DCMAKE_MODULE_PATH=MODTOK", "-DCMAKE_BUILD_TYPE=Release",
         "-DREZ_BUILD_TYPE=local", "-DREZ_BUILD_INSTALL=0"]]) :=
  C2_configure_failure_stops_pipeline plainInput [] "/bld" "/inst" false BuildType.localBT
    (fun _ => 1) [] rfl (by decide)

/-- C3: the assembled configure command is exactly, in this order: tool path;
`-d` and the working directory; `cmake_args`; the extra build args; the
install-prefix define; the module-path define with backslashes replaced by
forward slashes; the build-type define from the build target; the
`REZ_BUILD_TYPE` label define; the `REZ_BUILD_INSTALL` 0/1 define; the
generator flags when resolved; the `-DCENTRAL=1` define only under the
rez-1-compatibility condition.  With `cmake_args=["-Wno-dev"]`,
`install_path="/a/b"`, `build_target="Release"` the vector contains, in
order and exactly once each, the tool path, `-Wno-dev`, the install-prefix
define `/a/b` and the build-type define `Release`. -/
theorem C3_configure_command_order :
    (∀ (inp : BuildInput) (install_path : String) (install : Bool)
       (build_type : BuildType) (gen_flags : List String),
      assembleConfigureCommand inp install_path install build_type gen_flags =
        [inp.found_exe, "-d", inp.working_dir] ++ inp.cmake_args ++ inp.build_args ++
        ["-DCMAKE_INSTALL_PREFIX=" ++ install_path,
         "-DCMAKE_MODULE_PATH=" ++ replaceBackslashes inp.module_path_token,
         "-DCMAKE_BUILD_TYPE=" ++ inp.build_target,
         "-DREZ_BUILD_TYPE=" ++ build_type.name,
         "-DREZ_BUILD_INSTALL=" ++ (if install then "1" else "0")] ++
        gen_flags ++
        (if inp.rez_1_cmake_variables = true ∧ inp.disable_rez_1_compatibility = false ∧
            build_type = BuildType.central then ["-DCENTRAL=1"] else []))
    ∧ (assembleConfigureCommand
        { found_exe := "/usr/bin/cmake", working_dir := "/src/pkg",
          cmake_args := ["-Wno-dev"], build_args := [], child_build_args := [],
          make_binary := "", cmake_build_system := "", build_target := "Release",
          module_path_token := "MODTOK", build_thread_count := 4,
          platform_name := "linux", rez_1_cmake_variables := false,
          disable_rez_1_compatibility := false, write_build_scripts := false }
        "/a/b" false BuildType.localBT [] =
        ["/usr/bin/cmake", "-d", "/src/pkg", "-Wno-dev", "-DCMAKE_INSTALL_PREFIX=/a/b",
         "-DCMAKE_MODULE_PATH=MODTOK", "-DCMAKE_BUILD_TYPE=Release",
         "-DREZ_BUILD_TYPE=local", "-DREZ_BUILD_INSTALL=0"])
    ∧ (let c := assembleConfigureCommand
        { found_exe := "/usr/bin/cmake", working_dir := "/src/pkg",
          cmake_args := ["-Wno-dev"], build_args := [], child_build_args := [],
          make_binary := "", cmake_build_system := "", build_target := "Release",
          module_path_token := "MODTOK", build_thread_count := 4,
          platform_name := "linux", rez_1_cmake_variables := false,
          disable_rez_1_compatibility := false, write_build_scripts := false }
        "/a/b" false BuildType.localBT []
       c.countP (fun x => decide (x = "/usr/bin/cmake")) = 1
       ∧ c.countP (fun x => decide (x = "-Wno-dev")) = 1
       ∧ c.countP (fun x => decide (x = "-DCMAKE_INSTALL_PREFIX=/a/b")) = 1
       ∧ c.countP (fun x => decide (x = "-DCMAKE_BUILD_TYPE=Release")) = 1) :=
  ⟨assembleConfigureCommand_eq, rfl, by decide⟩

/-- C4: a selected generator name that is neither in the discovered catalog
nor a key of the legacy alias table makes `build` fail with the structured
generator-unsupported error (the `KeyError` of the legacy table lookup),
with zero commands executed: the failure precedes every phase. -/
theorem C4_generator_unsupported_fails_fast (inp : BuildInput) (catalog : List String)
    (bp ip : String) (install : Bool) (bt : BuildType) (exec : Nat → Int)
    (h1 : inp.cmake_build_system ≠ "")
    (h2 : pyContains catalog inp.cmake_build_system = false)
    (h3 : lookupStr legacy_build_systems inp.cmake_build_system = none) :
    build inp catalog bp ip install bt exec =
      (Except.error (BuildErr.generatorUnsupported inp.cmake_build_system), []) := by
  have hsel : computeGenFlags catalog inp.cmake_build_system =
      Except.error (BuildErr.generatorUnsupported inp.cmake_build_system) := by
    unfold computeGenFlags resolveGenerator
    rw [if_pos h1, if_pos h2, h3]
  unfold build
  rw [hsel]

theorem C4_witness :
    build { plainInput with cmake_build_system := "fancy-gen" } ["Ninja"] "/bld" "/inst"
        false BuildType.localBT (fun _ => 0) =
      (Except.error (BuildErr.generatorUnsupported "fancy-gen"), []) :=
  C4_generator_unsupported_fails_fast { plainInput with cmake_build_system := "fancy-gen" }
    ["Ninja"] "/bld" "/inst" false BuildType.localBT (fun _ => 0)
    (by decide) rfl rfl

/-- C5: with `make_binary` set and different from `"nmake"`, the build
command is the make binary, then exactly one injected `-j<threads>` flag
iff no child build arg starts with `-j`, then the child build args
verbatim. -/
theorem C5_make_binary_build_command (inp : BuildInput) (build_path : String)
    (h1 : inp.make_binary ≠ "") (h2 : inp.make_binary ≠ "nmake") :
    assembleMakeCmd inp build_path =
      [inp.make_binary] ++
        (if inp.child_build_args.any (fun x => pyStartsWith "-j" x) then []
         else ["-j" ++ toString inp.build_thread_count]) ++
      inp.child_build_args := by
  unfold assembleMakeCmd
  rw [if_neg h1, if_pos h2]
  cases hj : inp.child_build_args.any (fun x => pyStartsWith "-j" x) with
  | true => simp
  | false => simp

/-- A variant of `plainInput` using an explicit make binary, six build
threads, and the given child build args. -/
def makeInput (child_args : List String) : BuildInput :=
  { plainInput with make_binary := "/usr/bin/make", child_build_args := child_args, build_thread_count := 6 }

theorem C5_witness :
    assembleMakeCmd (makeInput ["VERBOSE=1"]) "/bld" = ["/usr/bin/make", "-j6", "VERBOSE=1"]
    ∧ assembleMakeCmd (makeInput ["-j8"]) "/bld" = ["/usr/bin/make", "-j8"] :=
  ⟨C5_make_binary_build_command (makeInput ["VERBOSE=1"]) "/bld" (by decide) (by decide),
   C5_make_binary_build_command (makeInput ["-j8"]) "/bld" (by decide) (by decide)⟩

/-- C6: with `write_build_scripts` enabled and a zero configure exit code,
`build` returns `success=True` with the script path
`os.path.join(build_path, "build-env")` (a non-empty string), having
executed only the configure command: zero build and zero install phases. -/
theorem C6_write_build_scripts_defer (inp : BuildInput) (catalog : List String)
    (bp ip : String) (install : Bool) (bt : BuildType) (exec : Nat → Int) (gf : List String)
    (hg : computeGenFlags catalog inp.cmake_build_system = Except.ok gf)
    (hw : inp.write_build_scripts = true)
    (h0 : exec 0 = 0) :
    build inp catalog bp ip install bt exec =
      (Except.ok { success := true,
                   build_env_script := some (os_path_join bp "build-env") },
       [assembleConfigureCommand inp ip install bt gf])
    ∧ (os_path_join bp "build-env").length ≠ 0 := by
  constructor
  · rw [build_eq_buildWithGen inp catalog bp ip install bt exec gf hg]
    unfold buildWithGen
    rw [if_neg (by simp [h0]), if_pos hw]
  · unfold os_path_join
    rw [if_neg (by decide)]
    by_cases hb : bp = "" ∨ pyEndsWith "/" bp = true
    · rw [if_pos hb, String.length_append]
      have h9 : ("build-env" : String).length = 9 := rfl
      omega
    · rw [if_neg hb, String.length_append, String.length_append]
      have h9 : ("build-env" : String).length = 9 := rfl
      omega

theorem C6_witness :
    build { plainInput with write_build_scripts := true } [] "/bld" "/inst" true
        BuildType.localBT (fun _ => 0) =
      (Except.ok { success := true, build_env_script := some "/bld/build-env" },
       [["/usr/bin/cmake", "-d", "/src/pkg", "-DCMAKE_INSTALL_PREFIX=/inst",
         "-DCMAKE_MODULE_PATH=MODTOK", "-DCMAKE_BUILD_TYPE=Release",
         "-DREZ_BUILD_TYPE=local", "-DREZ_BUILD_INSTALL=1"]])
    ∧ ("/bld/build-env" : String).length ≠ 0 :=
  C6_write_build_scripts_defer { plainInput with write_build_scripts := true } [] "/bld"
    "/inst" true BuildType.localBT (fun _ => 0) [] rfl rfl rfl

/-- C7: discovery parses well-formed generator lines: a `* Ninja = ...` line
after the heading yields default `Ninja` and a catalog containing `Ninja`;
the name of a `Visual Studio 16 2019 [arch] = ...` line is exactly
`Visual Studio 16 2019` (no `[arch]`, no trailing space); with several
default-marked lines, the last one wins. -/
theorem C7_discovery_parses_well_formed :
    build_systems "Generators\n* Ninja = Generates ninja files."
      = Except.ok (["Ninja"], some "Ninja")
    ∧ build_systems "Generators\nVisual Studio 16 2019 [arch] = Generates VS project files."
      = Except.ok (["Visual Studio 16 2019"], none)
    ∧ build_systems "Generators\n* A = x\n* B = y" = Except.ok (["A", "B"], some "B") :=
  ⟨rfl, rfl, rfl⟩

/-- C8: after a successful configure and build (exit code 0, not in
script-writing mode), the install phase runs iff install was requested and
the make command does not already contain `"install"`; the install command
is the make command plus `--target install` (no-make-binary form) or plus
`install`; the result's success is the last executed phase's exit code
compared with zero. -/
theorem C8_install_phase (inp : BuildInput) (catalog : List String)
    (bp ip : String) (install : Bool) (bt : BuildType) (exec : Nat → Int) (gf : List String)
    (hg : computeGenFlags catalog inp.cmake_build_system = Except.ok gf)
    (hw : inp.write_build_scripts = false)
    (h0 : exec 0 = 0) (h1 : exec 1 = 0) :
    build inp catalog bp ip install bt exec =
      (if install = true ∧ pyContains (assembleMakeCmd inp bp) "install" = false then
        (Except.ok { success := decide (exec 2 = 0), build_env_script := none },
         [assembleConfigureCommand inp ip install bt gf, assembleAllCmd inp bp,
          assembleMakeCmd inp bp ++
            (if inp.make_binary = "" then ["--target"] else []) ++ ["install"]])
       else
        (Except.ok { success := true, build_env_script := none },
         [assembleConfigureCommand inp ip install bt gf, assembleAllCmd inp bp])) := by
  rw [build_eq_buildWithGen inp catalog bp ip install bt exec gf hg]
  unfold buildWithGen assembleInstallCmd
  rw [if_neg (by simp [h0]), if_neg (by simp [hw])]
  by_cases hc : install = true ∧ pyContains (assembleMakeCmd inp bp) "install" = false
  · rw [if_pos ⟨h1, hc.1, hc.2⟩, if_pos hc]
  · rw [if_neg (fun h => hc ⟨h.2.1, h.2.2⟩), if_neg hc]
    simp [h1]

theorem C8_witness :
    build plainInput [] "/bld" "/inst" true BuildType.localBT (fun _ => 0) =
      (Except.ok { success := true, build_env_script := none },
       [["/usr/bin/cmake", "-d", "/src/pkg", "-DCMAKE_INSTALL_PREFIX=/inst",
         "-DCMAKE_MODULE_PATH=MODTOK", "-DCMAKE_BUILD_TYPE=Release",
         "-DREZ_BUILD_TYPE=local", "-DREZ_BUILD_INSTALL=1"],
        ["/usr/bin/cmake", "--build", "/bld", "--target", "all"],
        ["/usr/bin/cmake", "--build", "/bld", "--target", "install"]]) :=
  C8_install_phase plainInput [] "/bld" "/inst" true BuildType.localBT (fun _ => 0) []
    rfl rfl rfl rfl

/-- C9: when no generator was explicitly selected (`cmake_build_system`
empty), the generator flags resolve to `[]` whatever the discovered catalog
holds, and the assembled configure command contains no `-G` argument
(provided the caller-supplied argument lists, tool path and working
directory do not themselves contain the literal `-G`). -/
theorem C9_no_generator_flag (inp : BuildInput) (catalog : List String)
    (install_path : String) (install : Bool) (build_type : BuildType)
    (hcbs : inp.cmake_build_system = "")
    (hca : "-G" ∉ inp.cmake_args) (hba : "-G" ∉ inp.build_args)
    (hexe : inp.found_exe ≠ "-G") (hwd : inp.working_dir ≠ "-G") :
    computeGenFlags catalog inp.cmake_build_system = Except.ok []
    ∧ "-G" ∉ assembleConfigureCommand inp install_path install build_type [] := by
  constructor
  · unfold computeGenFlags
    rw [if_neg (by simp [hcbs])]
  · rw [assembleConfigureCommand_eq]
    intro hmem
    simp only [List.append_assoc, List.mem_append, List.mem_cons, List.mem_singleton,
      List.not_mem_nil, or_false, false_or] at hmem
    rcases hmem with (h | h | h) | h | h | (h | h | h | h | h) | h
    · exact hexe h.symm
    · exact absurd h (by decide)
    · exact hwd h.symm
    · exact hca h
    · exact hba h
    · exact append_ne_dashG "-DCMAKE_INSTALL_PREFIX=" _ (by decide) h.symm
    · exact append_ne_dashG "-DCMAKE_MODULE_PATH=" _ (by decide) h.symm
    · exact append_ne_dashG "-DCMAKE_BUILD_TYPE=" _ (by decide) h.symm
    · exact append_ne_dashG "-DREZ_BUILD_TYPE=" _ (by decide) h.symm
    · exact append_ne_dashG "-DREZ_BUILD_INSTALL=" _ (by decide) h.symm
    · split at h
      · rw [List.mem_singleton] at h
        exact absurd h (by decide)
      · exact absurd h (List.not_mem_nil _)

theorem C9_witness :
    computeGenFlags ["Ninja", "Unix Makefiles"] "" = Except.ok []
    ∧ "-G" ∉ assembleConfigureCommand plainInput "/inst" false BuildType.localBT [] :=
  C9_no_generator_flag plainInput ["Ninja", "Unix Makefiles"] "/inst" false
    BuildType.localBT rfl (by decide) (by decide) (by decide) (by decide)

/-- C10: with `make_binary = "nmake"`, both the build command and the
executed `all_cmd` are exactly the child build args: no binary prepended,
no thread-count flag, no `--target` full-build suffix. -/
theorem C10_nmake_build_command (inp : BuildInput) (build_path : String)
    (h : inp.make_binary = "nmake") :
    assembleMakeCmd inp build_path = inp.child_build_args
    ∧ assembleAllCmd inp build_path = inp.child_build_args := by
  have hm : assembleMakeCmd inp build_path = inp.child_build_args := by
    unfold assembleMakeCmd
    rw [h]
    simp
  refine ⟨hm, ?_⟩
  unfold assembleAllCmd
  rw [h, hm]
  simp

/-- A variant of `plainInput` selecting the Windows make variant. -/
def nmakeInput : BuildInput :=
  { plainInput with make_binary := "nmake", child_build_args := ["VERBOSE=1"] }

theorem C10_witness :
    assembleMakeCmd nmakeInput "/bld" = ["VERBOSE=1"]
    ∧ assembleAllCmd nmakeInput "/bld" = ["VERBOSE=1"] :=
  C10_nmake_build_command nmakeInput "/bld" rfl
